import Mathlib

/-!
Verification of the rigid-body dynamics core of the repository
(dynamic/body/body.ts, dynamic/core.ts, render/LayerManager.ts).

Numbers are modelled as rationals; JavaScript remainder on nonnegative
operands is modelled by jsMod below.  Subclass hooks that body.ts leaves
abstract (calcArea, calcDensity, calcCentroid, calcRotationInertia,
updateBoundRect) are taken as parameters or logged as messages, so that
the base-class logic of body.ts is embedded exactly as written.
-/

namespace RBD

/-- Truncation of a rational toward zero, as JavaScript casts would do. -/
def ratTrunc (q : ℚ) : ℤ :=
  q.num.tdiv (q.den : ℤ)

/-- JavaScript remainder a % b for numbers: a - b * trunc(a / b). -/
def jsMod (a b : ℚ) : ℚ :=
  a - b * (ratTrunc (a / b) : ℚ)

/-- vector from math/vector.ts (not under src).
Modelled from the spec: Vector2 is a pair of coordinates (x, y), a pure value. -/
structure Vec where
  x : ℚ
  y : ℚ
deriving DecidableEq

/-- Vector.add from math/vector.ts (not under src).
Modelled from the spec: componentwise addition of Vector2 values. -/
def Vec.add (a b : Vec) : Vec :=
  ⟨a.x + b.x, a.y + b.y⟩

/-- Vector.sub from math/vector.ts (not under src).
Modelled from the spec: componentwise subtraction of Vector2 values. -/
def Vec.sub (a b : Vec) : Vec :=
  ⟨a.x - b.x, a.y - b.y⟩

/-- staticType enum of body.ts: none = 0, position = 1, total = 2. -/
inductive staticType where
  | none
  | position
  | total
deriving DecidableEq

/-- state enum of body.ts: init = 0, simulate = 1, sleep = 2. -/
inductive state where
  | init
  | simulate
  | sleep
deriving DecidableEq

/-- A message passed to the abstract updateBoundRect hook of body.ts
(the concrete hook lives in the subclasses, outside src): either a
position delta or a rotation delta. -/
inductive BRUpdate where
  | pos (val : Vec)
  | rot (val : ℚ)
deriving DecidableEq

/-- The physical state of a Body of body.ts, together with the x, y and
rotate attributes of its visual shape proxy and the log of messages the
body has sent to its abstract updateBoundRect hook. -/
structure Body where
  linearVel : Vec
  angularVel : ℚ
  linearAcc : Vec
  angularAcc : ℚ
  pos : Vec
  rot : ℚ
  mass : ℚ
  inverseMass : ℚ
  friction : ℚ
  restitution : ℚ
  area : ℚ
  density : ℚ
  centroid : Vec
  rotationInertia : ℚ
  torque : ℚ
  static : staticType
  state : state
  isCollide : Bool
  curMotion : ℚ
  frameMotionListIn10 : List ℚ
  shapeX : ℚ
  shapeY : ℚ
  shapeRotate : ℚ
  boundRectUpdates : List BRUpdate
deriving DecidableEq

/-- Nature of body.ts: each field may be left undefined by the user. -/
structure Nature where
  mass : Option ℚ
  static : Option String
  linearVelocity : Option Vec
  angularVelocity : Option ℚ
  friction : Option ℚ
  restitution : Option ℚ
deriving DecidableEq

/-- BodyConfig of body.ts, restricted to what initPhysicalData consumes:
the optional nature block and the attributes read off the freshly built
shape (its center, rotate, x and y). -/
structure BodyConfig where
  nature : Option Nature
  shapeCenter : Vec
  shapeRotate : ℚ
  shapeX : ℚ
  shapeY : ℚ
deriving DecidableEq

/-- JavaScript a || b for an optionally-present number a: undefined and 0
are falsy, every other number is truthy. -/
def orNum (v : Option ℚ) (d : ℚ) : ℚ :=
  match v with
  | some x => if x = 0 then d else x
  | none => d

/-- JavaScript a || b for an optionally-present array a: an array value is
always truthy, only undefined falls through to the default. -/
def orVec (v : Option Vec) (d : Vec) : Vec :=
  match v with
  | some x => x
  | none => d

/-- The switch on opt.nature.static in initPhysicalData of body.ts,
including the guarding truthiness test (an empty string is falsy) and the
default branch. -/
def parseStatic (s : Option String) : staticType :=
  match s with
  | some str =>
    if str = "" then staticType.none
    else if str = "none" then staticType.none
    else if str = "position" then staticType.position
    else if str = "total" then staticType.total
    else staticType.none
  | none => staticType.none

/-- initPhysicalData of body.ts: set every field to its default, then
overlay the user-configured nature values, each guarded by JavaScript
truthiness. -/
def initPhysicalData (opt : BodyConfig) : Body :=
  let b : Body :=
    { pos := opt.shapeCenter
      rot := opt.shapeRotate
      linearAcc := ⟨0, 0⟩
      linearVel := ⟨0, 0⟩
      angularVel := 0
      angularAcc := 0
      mass := 0
      inverseMass := -1
      friction := 0
      restitution := 9/10
      area := 0
      density := 1/100
      centroid := ⟨0, 0⟩
      rotationInertia := 0
      torque := 0
      static := staticType.none
      state := state.init
      isCollide := false
      curMotion := 0
      frameMotionListIn10 := []
      shapeX := opt.shapeX
      shapeY := opt.shapeY
      shapeRotate := opt.shapeRotate
      boundRectUpdates := [] }
  match opt.nature with
  | some n =>
    { b with
      linearVel := orVec n.linearVelocity b.linearVel
      angularVel := orNum n.angularVelocity b.angularVel
      friction := orNum n.friction b.friction
      restitution := orNum n.restitution b.restitution
      mass := orNum n.mass b.mass
      static := parseStatic n.static }
  | none => b

/-- setMassData of body.ts.  calcArea, calcDensity, calcCentroid and
calcRotationInertia are abstract in body.ts (overridden per shape), so
their return values are parameters here. -/
def setMassData (b : Body) (calcAreaRes calcDensityRes : ℚ)
    (calcCentroidRes : Vec) (calcRotationInertiaRes : ℚ) : Body :=
  let b1 : Body := { b with area := calcAreaRes }
  let b2 : Body :=
    if b1.mass ≠ 0 then { b1 with density := calcDensityRes }
    else { b1 with mass := b1.area * b1.density }
  let b3 : Body :=
    { b2 with centroid := calcCentroidRes, rotationInertia := calcRotationInertiaRes }
  if b3.static = staticType.position ∨ b3.static = staticType.total then
    { b3 with inverseMass := 0 }
  else
    { b3 with inverseMass := 1 / b3.mass }

/-- setPos of body.ts: store the new position, message the boundRect hook
with the position delta, and shift the shape proxy x and y by the same
delta. -/
def setPos (b : Body) (pos : Vec) : Body :=
  let shapeX := b.shapeX
  let shapeY := b.shapeY
  let dPos := Vec.sub pos b.pos
  { b with
    pos := pos
    boundRectUpdates := b.boundRectUpdates ++ [BRUpdate.pos dPos]
    shapeX := shapeX + dPos.x
    shapeY := shapeY + dPos.y }

/-- setRotation of body.ts: store the degree value as given, message the
boundRect hook with the angular delta, and push the value to the shape
proxy rotate attribute. -/
def setRotation (b : Body) (deg : ℚ) : Body :=
  let dDeg := deg - b.rot
  { b with
    rot := deg
    boundRectUpdates := b.boundRectUpdates ++ [BRUpdate.rot dDeg]
    shapeRotate := deg }

/-- integratePosition of body.ts: v += a, then setPos(v + pos) with the
updated velocity. -/
def integratePosition (b : Body) : Body :=
  let b1 : Body := { b with linearVel := Vec.add b.linearVel b.linearAcc }
  setPos b1 (Vec.add b1.linearVel b1.pos)

/-- integrateRotation of body.ts: angularVel += angularAcc; if rot >= 360
then rot %= 360; setRotation(rot + angularVel). -/
def integrateRotation (b : Body) : Body :=
  let b1 : Body := { b with angularVel := b.angularVel + b.angularAcc }
  let b2 : Body := if b1.rot ≥ 360 then { b1 with rot := jsMod b1.rot 360 } else b1
  setRotation b2 (b2.rot + b2.angularVel)

/-- The motion sample of isTimeToSleep of body.ts:
Vector.len(lv) * Vector.len(lv) + av * av.  Modelled from the spec:
Vector.len (math/vector.ts, not under src) is the Euclidean norm, so the
product is exactly the squared norm x^2 + y^2, kept rational here. -/
def motionSample (lv : Vec) (av : ℚ) : ℚ :=
  (lv.x * lv.x + lv.y * lv.y) + av * av

/-- isTimeToSleep of body.ts.  calcStandardDeviation lives in util/util.ts
(not under src), so it is a parameter: the embedding holds for any
standard-deviation function. -/
def isTimeToSleep (calcStandardDeviation : List ℚ → ℚ)
    (b : Body) (lv : Vec) (av : ℚ) : Body :=
  let motion := motionSample lv av
  let shifted :=
    if b.frameMotionListIn10.length ≥ 20 then b.frameMotionListIn10.tail
    else b.frameMotionListIn10
  let pushed := shifted ++ [motion]
  if pushed.length = 20 then
    let s := calcStandardDeviation pushed
    if s < 500 then { b with frameMotionListIn10 := pushed, state := state.sleep }
    else { b with frameMotionListIn10 := pushed, state := state.simulate }
  else
    { b with frameMotionListIn10 := pushed }

/-- LayerManager of render/LayerManager.ts, restricted to the fields its
queries read: containerSize = [offsetWidth, offsetHeight] as stored by the
constructor, the running totalShapeCount, and the getCount() values of the
layers of layerMap in iteration order. -/
structure LayerManager where
  containerSize : List ℚ
  totalShapeCount : ℕ
  layerCounts : List ℕ
deriving DecidableEq

/-- The LayerManager constructor: totalShapeCount starts at 0,
containerSize is [container.offsetWidth, container.offsetHeight], and
layerMap starts empty. -/
def newLayerManager (offsetWidth offsetHeight : ℚ) : LayerManager :=
  { containerSize := [offsetWidth, offsetHeight]
    totalShapeCount := 0
    layerCounts := [] }

/-- getHeight of LayerManager.ts: returns containerSize[0]. -/
def LayerManager.getHeight (lm : LayerManager) : ℚ :=
  lm.containerSize.getD 0 0

/-- getWidth of LayerManager.ts: returns containerSize[1]. -/
def LayerManager.getWidth (lm : LayerManager) : ℚ :=
  lm.containerSize.getD 1 0

/-- getTotalCount of LayerManager.ts: adds every layer's getCount() onto
the stored totalShapeCount, then returns the stored field.  The call
mutates the manager, so it returns the new manager together with the
returned number. -/
def LayerManager.getTotalCount (lm : LayerManager) : LayerManager × ℕ :=
  let t := lm.totalShapeCount + lm.layerCounts.sum
  ({ lm with totalShapeCount := t }, t)

/-- n successive calls of getTotalCount on a manager: the resulting
manager and the value returned by the last call (for n = 0, the stored
field unread). -/
def LayerManager.getTotalCountN (lm : LayerManager) : ℕ → LayerManager × ℕ
  | 0 => (lm, lm.totalShapeCount)
  | n + 1 =>
    let r := lm.getTotalCountN n
    r.fst.getTotalCount

/-- WorldCreator of dynamic/core.ts, restricted to the state its clear()
touches or spares: the shapes held by the renderer, the bodies of the
body heap, and the boundaries of the boundaries manager (shapes and
boundaries as unique ids). -/
structure WorldCreator where
  rendererShapes : List ℕ
  bodyHeap : List Body
  boundaries : List ℕ
deriving DecidableEq

/-- clear of dynamic/core.ts: this.Renderer.clear(); this.bodyHeap.clear();
the boundaries manager is not touched.  Renderer.clear and BodyHeap.clear
are not under src; modelled from the spec: BodyHeap.clear removes all
bodies, and clear() drops all bodies from the renderer as well. -/
def WorldCreator.clear (w : WorldCreator) : WorldCreator :=
  { w with rendererShapes := [], bodyHeap := [] }

/-- A concrete body in the state initPhysicalData produces for a
configuration with no nature block and a shape centered at the origin. -/
def b0 : Body :=
  { linearVel := ⟨0, 0⟩
    angularVel := 0
    linearAcc := ⟨0, 0⟩
    angularAcc := 0
    pos := ⟨0, 0⟩
    rot := 0
    mass := 0
    inverseMass := -1
    friction := 0
    restitution := 9/10
    area := 0
    density := 1/100
    centroid := ⟨0, 0⟩
    rotationInertia := 0
    torque := 0
    static := staticType.none
    state := state.init
    isCollide := false
    curMotion := 0
    frameMotionListIn10 := []
    shapeX := 0
    shapeY := 0
    shapeRotate := 0
    boundRectUpdates := [] }

/-- C5: integratePosition performs semi-implicit Euler: the new velocity
is v + a, and the new position is the old position translated by that
updated velocity, not the old one. -/
theorem C5_integratePosition_semi_implicit_euler (b : Body) :
    (integratePosition b).linearVel = Vec.add b.linearVel b.linearAcc ∧
    (integratePosition b).pos = Vec.add (Vec.add b.linearVel b.linearAcc) b.pos := by
  simp [integratePosition, setPos]

/-- C6: after setPos(p) the stored position is exactly p, and the shape
proxy x and y attributes are shifted by the same delta p - pos_old. -/
theorem C6_setPos_roundtrip_and_proxy (b : Body) (p : Vec) :
    (setPos b p).pos = p ∧
    (setPos b p).shapeX = b.shapeX + (p.x - b.pos.x) ∧
    (setPos b p).shapeY = b.shapeY + (p.y - b.pos.y) := by
  simp [setPos, Vec.sub]

/-- C8: WorldCreator.clear empties the body heap and the renderer shape
list while leaving the boundaries manager untouched. -/
theorem C8_clear_drops_bodies_keeps_boundaries (w : WorldCreator) :
    w.clear.bodyHeap = [] ∧ w.clear.rendererShapes = [] ∧
    w.clear.boundaries = w.boundaries := by
  simp [WorldCreator.clear]

/-- C3 counterexample: setRotation(400) on a body with rot = 0 stores 400,
which does not lie in [0, 360): setRotation does not normalize. -/
theorem C3_counterexample_setRotation_400 :
    (setRotation b0 400).rot = 400 ∧ ¬ (setRotation b0 400).rot < 360 := by
  refine ⟨by simp [setRotation, b0], ?_⟩
  simp only [setRotation, b0, not_lt]
  norm_num

/-- C3 amended: setRotation(d) stores d verbatim in rot and in the shape
proxy rotate attribute, without normalizing to [0, 360); a further call
overwrites them with its own argument verbatim, so repeating the same
argument is idempotent on rot and the proxy, but arguments merely equal
modulo 360 leave different orientations. -/
theorem C3_setRotation_stores_verbatim (b : Body) (d d2 : ℚ) :
    (setRotation b d).rot = d ∧ (setRotation b d).shapeRotate = d ∧
    (setRotation (setRotation b d) d2).rot = d2 ∧
    (setRotation (setRotation b d) d2).shapeRotate = d2 := by
  simp [setRotation]

/-- C2 counterexample: a body with rot = 0 and angular velocity 400 leaves
integrateRotation with rot = 400, outside [0, 360). -/
theorem C2_counterexample_rot_400 :
    (integrateRotation { b0 with angularVel := 400 }).rot = 400 ∧
    ¬ (integrateRotation { b0 with angularVel := 400 }).rot < 360 := by
  constructor <;> simp [integrateRotation, setRotation, jsMod, b0] <;> norm_num

/-- C2 amended: integrateRotation updates the angular velocity to ω + α,
reduces rot modulo 360 only when rot ≥ 360 and only before the update,
and then stores that reduced value plus the new angular velocity; the
result is not normalized and may lie outside [0, 360). -/
theorem C2_integrateRotation_prenormalizes (b : Body) :
    (integrateRotation b).angularVel = b.angularVel + b.angularAcc ∧
    (integrateRotation b).rot =
      (if b.rot ≥ 360 then jsMod b.rot 360 else b.rot)
        + (b.angularVel + b.angularAcc) := by
  unfold integrateRotation setRotation
  by_cases h : b.rot ≥ 360 <;> simp [h]

/-- C4: evaluating LayerManager on a container of offsetWidth 800 and
offsetHeight 600: getWidth() returns 600 (the height) and getHeight()
returns 800 (the width) — the two queries read the swapped
containerSize indices. -/
theorem C4_getWidth_getHeight_swapped :
    (newLayerManager 800 600).getWidth = 600 ∧
    (newLayerManager 800 600).getHeight = 800 := by
  simp [newLayerManager, LayerManager.getWidth, LayerManager.getHeight]

/-- C1: after setMassData, a nonzero user-configured mass makes density
recomputed from it (the calcDensity result) and keeps the mass; a zero
mass is replaced by area times the stored density; and inverseMass is 0
exactly when static is position or total, so inverseMass = 0 iff
static differs from none, whenever the computed area and the stored
density are positive. -/
theorem C1_setMassData_mass_density_inverseMass
    (b : Body) (a d : ℚ) (c : Vec) (ri : ℚ)
    (ha : 0 < a) (hd : 0 < b.density) :
    (b.mass ≠ 0 → (setMassData b a d c ri).density = d ∧
      (setMassData b a d c ri).mass = b.mass) ∧
    (b.mass = 0 → (setMassData b a d c ri).density = b.density ∧
      (setMassData b a d c ri).mass = a * b.density) ∧
    ((setMassData b a d c ri).inverseMass = 0 ↔
      (setMassData b a d c ri).static ≠ staticType.none) := by
  by_cases hm : b.mass = 0
  · have hmne : a * b.density ≠ 0 := ne_of_gt (mul_pos ha hd)
    cases hst : b.static <;>
      simp [setMassData, hm, hst, hmne, one_div, inv_eq_zero, ha.ne', hd.ne']
  · cases hst : b.static <;>
      simp [setMassData, hm, hst, one_div, inv_eq_zero]

/-- Witness for C1 at a concrete body (b0, density 1/100) with computed
area 2 and calcDensity result 3. -/
theorem C1_witness :
    ((0 : ℚ) < 2 ∧ (0 : ℚ) < b0.density) ∧
    ((b0.mass ≠ 0 → (setMassData b0 2 3 ⟨0, 0⟩ 0).density = 3 ∧
        (setMassData b0 2 3 ⟨0, 0⟩ 0).mass = b0.mass) ∧
      (b0.mass = 0 → (setMassData b0 2 3 ⟨0, 0⟩ 0).density = b0.density ∧
        (setMassData b0 2 3 ⟨0, 0⟩ 0).mass = 2 * b0.density) ∧
      ((setMassData b0 2 3 ⟨0, 0⟩ 0).inverseMass = 0 ↔
        (setMassData b0 2 3 ⟨0, 0⟩ 0).static ≠ staticType.none)) :=
  ⟨⟨by norm_num, by norm_num [b0]⟩,
    C1_setMassData_mass_density_inverseMass b0 2 3 ⟨0, 0⟩ 0 (by norm_num)
      (by norm_num [b0])⟩

/-- C7: isTimeToSleep appends the motion sample (dropping the head first
when the ring is full), keeps the ring at no more than 20 entries, sets
the state by the standard-deviation threshold 500 exactly when the ring
reaches 20 entries, and leaves the state unchanged otherwise; this holds
for every standard-deviation function. -/
theorem C7_isTimeToSleep_ring_and_state
    (calcSD : List ℚ → ℚ) (b : Body) (lv : Vec) (av : ℚ)
    (h : b.frameMotionListIn10.length ≤ 20) :
    (isTimeToSleep calcSD b lv av).frameMotionListIn10 =
      (if b.frameMotionListIn10.length ≥ 20 then b.frameMotionListIn10.tail
        else b.frameMotionListIn10) ++ [motionSample lv av] ∧
    (isTimeToSleep calcSD b lv av).frameMotionListIn10.length ≤ 20 ∧
    ((isTimeToSleep calcSD b lv av).frameMotionListIn10.length = 20 →
      (isTimeToSleep calcSD b lv av).state =
        (if calcSD ((isTimeToSleep calcSD b lv av).frameMotionListIn10) < 500
          then state.sleep else state.simulate)) ∧
    ((isTimeToSleep calcSD b lv av).frameMotionListIn10.length < 20 →
      (isTimeToSleep calcSD b lv av).state = b.state) := by
  unfold isTimeToSleep
  by_cases h20 : b.frameMotionListIn10.length ≥ 20
  · have hlen : b.frameMotionListIn10.length = 20 := le_antisymm h h20
    have hp : (b.frameMotionListIn10.tail ++ [motionSample lv av]).length = 20 := by
      simp [hlen]
    by_cases hs : calcSD (b.frameMotionListIn10.tail ++ [motionSample lv av]) < 500 <;>
      simp [h20, hp, hs]
  · have hlt : b.frameMotionListIn10.length < 20 := lt_of_not_ge h20
    have hp : (b.frameMotionListIn10 ++ [motionSample lv av]).length =
        b.frameMotionListIn10.length + 1 := by simp
    by_cases h19 : b.frameMotionListIn10.length + 1 = 20
    · by_cases hs : calcSD (b.frameMotionListIn10 ++ [motionSample lv av]) < 500 <;>
        simp [h20, hp, h19, hs]
    · have hle : b.frameMotionListIn10.length + 1 ≤ 20 := by omega
      simp [h20, hp, h19, hle]

/-- Witness for C7: a fresh body with empty ring, zero velocity sample,
and the constantly-zero standard-deviation function. -/
theorem C7_witness :
    b0.frameMotionListIn10.length ≤ 20 ∧
    ((isTimeToSleep (fun _ => 0) b0 ⟨0, 0⟩ 0).frameMotionListIn10 =
      (if b0.frameMotionListIn10.length ≥ 20 then b0.frameMotionListIn10.tail
        else b0.frameMotionListIn10) ++ [motionSample ⟨0, 0⟩ 0] ∧
    (isTimeToSleep (fun _ => 0) b0 ⟨0, 0⟩ 0).frameMotionListIn10.length ≤ 20 ∧
    ((isTimeToSleep (fun _ => 0) b0 ⟨0, 0⟩ 0).frameMotionListIn10.length = 20 →
      (isTimeToSleep (fun _ => 0) b0 ⟨0, 0⟩ 0).state =
        (if (fun _ => (0 : ℚ)) ((isTimeToSleep (fun _ => 0) b0 ⟨0, 0⟩ 0).frameMotionListIn10) < 500
          then state.sleep else state.simulate)) ∧
    ((isTimeToSleep (fun _ => 0) b0 ⟨0, 0⟩ 0).frameMotionListIn10.length < 20 →
      (isTimeToSleep (fun _ => 0) b0 ⟨0, 0⟩ 0).state = b0.state)) :=
  ⟨by simp [b0], C7_isTimeToSleep_ring_and_state (fun _ => 0) b0 ⟨0, 0⟩ 0 (by simp [b0])⟩

/-- Running getTotalCount n times adds n times the layer sum onto the
stored field and returns the stored field, leaving the layers alone. -/
theorem getTotalCountN_spec (lm : LayerManager) (n : ℕ) :
    (lm.getTotalCountN n).fst.totalShapeCount =
      lm.totalShapeCount + n * lm.layerCounts.sum ∧
    (lm.getTotalCountN n).fst.layerCounts = lm.layerCounts ∧
    (lm.getTotalCountN n).snd = lm.totalShapeCount + n * lm.layerCounts.sum := by
  induction n with
  | zero => simp [LayerManager.getTotalCountN]
  | succ k ih =>
    obtain ⟨h1, h2, h3⟩ := ih
    refine ⟨?_, ?_, ?_⟩ <;>
      simp [LayerManager.getTotalCountN, LayerManager.getTotalCount, h1, h2] <;>
      ring

/-- C9: starting from the constructor state (totalShapeCount = 0), the
n-th call of getTotalCount over an unchanged layer set returns n times
the sum of the layers' shape counts, because each call adds the current
sum onto a running total that is never reset. -/
theorem C9_getTotalCount_accumulates (lm : LayerManager) (n : ℕ)
    (h : lm.totalShapeCount = 0) :
    (lm.getTotalCountN n).snd = n * lm.layerCounts.sum ∧
    (lm.getTotalCountN n).fst.layerCounts = lm.layerCounts := by
  obtain ⟨h1, h2, h3⟩ := getTotalCountN_spec lm n
  rw [h3, h2, h]
  simp

/-- A LayerManager over an 800 by 600 container with two layers holding
2 and 3 shapes. -/
def lm0 : LayerManager :=
  { containerSize := [800, 600], totalShapeCount := 0, layerCounts := [2, 3] }

/-- Witness for C9: after two calls on lm0 the returned count is
2 * (2 + 3) = 10, twice the actual shape count. -/
theorem C9_witness :
    lm0.totalShapeCount = 0 ∧
    ((lm0.getTotalCountN 2).snd = 2 * lm0.layerCounts.sum ∧
      (lm0.getTotalCountN 2).fst.layerCounts = lm0.layerCounts) :=
  ⟨rfl, C9_getTotalCount_accumulates lm0 2 rfl⟩

/-- C10: a configured nature restitution of 0 is falsy under the
JavaScript or-default, so the constructed body keeps the default 0.9;
likewise a configured mass of 0 and angular velocity of 0 fall back to
the defaults (both 0). -/
theorem C10_zero_restitution_gets_default
    (opt : BodyConfig) (n : Nature)
    (hn : opt.nature = some n) (hr : n.restitution = some 0) :
    (initPhysicalData opt).restitution = 9/10 ∧
    (n.mass = some 0 → (initPhysicalData opt).mass = 0) ∧
    (n.angularVelocity = some 0 → (initPhysicalData opt).angularVel = 0) := by
  refine ⟨?_, ?_, ?_⟩
  · simp [initPhysicalData, hn, orNum, hr]
  · intro hm
    simp [initPhysicalData, hn, orNum, hm]
  · intro hv
    simp [initPhysicalData, hn, orNum, hv]

/-- A nature block configuring restitution, mass and angular velocity
all to 0. -/
def nature0 : Nature :=
  { mass := some 0
    static := Option.none
    linearVelocity := Option.none
    angularVelocity := some 0
    friction := Option.none
    restitution := some 0 }

/-- A body configuration carrying nature0 on a shape at the origin. -/
def cfg0 : BodyConfig :=
  { nature := some nature0
    shapeCenter := ⟨0, 0⟩
    shapeRotate := 0
    shapeX := 0
    shapeY := 0 }

/-- Witness for C10 at the concrete configuration cfg0. -/
theorem C10_witness :
    (cfg0.nature = some nature0 ∧ nature0.restitution = some 0) ∧
    ((initPhysicalData cfg0).restitution = 9/10 ∧
      (nature0.mass = some 0 → (initPhysicalData cfg0).mass = 0) ∧
      (nature0.angularVelocity = some 0 → (initPhysicalData cfg0).angularVel = 0)) :=
  ⟨⟨rfl, rfl⟩, C10_zero_restitution_gets_default cfg0 nature0 rfl rfl⟩

end RBD
